import Mathlib

/-!
Verification of the LinguaVoice audio pipeline.

Shallow embedding of the core of `src/unnamed/part_000` (the Gemini service
module: `translateAndSegment`, `generateSpeech`, `processContent`,
`alignSegments`, `base64ToWavBlob`) and the relevant handlers of
`src/App.tsx` (`handleGenerate`, `handleSeek`, `skip`).

Modelling conventions:
* Byte buffers are `List Nat` of values in `0..255`; `DataView.setUint16` /
  `setUint32` truncate modulo `2^16` / `2^32` exactly as the browser does,
  which the little-endian serializers below reproduce via `%`/`/`.
* JavaScript numbers used by the aligner are modelled by `JSNum`: an exact
  rational together with the special values `NaN`, `Infinity`, `-Infinity`
  (rounding of binary floating point is idealized to exact arithmetic; the
  sign of zero is not modelled).
* `async`/`await` calls that may throw are modelled with `Except String`;
  the remote Gemini API calls are opaque parameters supplying the parsed
  response payloads (`Option` models a missing `response.text` /
  `inlineData.data`).
-/

namespace LinguaVoice

/-! ### Byte-level WAV container encoder (`base64ToWavBlob`) -/

/-- `view.setUint16 (off, v, true)`: the two little-endian bytes of
`v mod 2^16`. -/
def u16le (v : Nat) : List Nat :=
  [v % 256, v / 256 % 256]

/-- `view.setUint32 (off, v, true)`: the four little-endian bytes of
`v mod 2^32`. -/
def u32le (v : Nat) : List Nat :=
  [v % 256, v / 256 % 256, v / 65536 % 256, v / 16777216 % 256]

/-- The 44-byte WAV header written by `base64ToWavBlob` for a payload of
`len` bytes at rate `sampleRate`.  Each chunk mirrors one `writeString` /
`setUint16` / `setUint32` call at increasing offsets (0, 4, 8, 12, 16, 20,
22, 24, 28, 32, 34, 36, 40); the ASCII tags are `'RIFF'`, `'WAVE'`,
`'fmt '` and `'data'`. -/
def wavHeader (len : Nat) (sampleRate : Nat) : List Nat :=
  [82, 73, 70, 70]
  ++ u32le (36 + len)
  ++ [87, 65, 86, 69]
  ++ [102, 109, 116, 32]
  ++ u32le 16
  ++ u16le 1
  ++ u16le 1
  ++ u32le sampleRate
  ++ u32le (sampleRate * 2)
  ++ u16le 2
  ++ u16le 16
  ++ [100, 97, 116, 97]
  ++ u32le len

/-- `base64ToWavBlob` from `src/unnamed/part_000`.  `payload` is the byte
sequence decoded from the base64 input (the `charCodeAt` values of
`window.atob`'s result, which the function copies verbatim after the
header); the browser-side base64 decoding itself is host functionality and
is not modelled.  The default sample rate at the call site is 24000. -/
def base64ToWavBlob (payload : List Nat) (sampleRate : Nat) : List Nat :=
  wavHeader payload.length sampleRate ++ payload

/-- Byte of a buffer at an offset (0 past the end). -/
def byteAt : List Nat → Nat → Nat
  | [], _ => 0
  | b :: _, 0 => b
  | _ :: bs, n + 1 => byteAt bs n

/-- Read an unsigned 16-bit little-endian value at `off`. -/
def readU16le (bs : List Nat) (off : Nat) : Nat :=
  byteAt bs off + 256 * byteAt bs (off + 1)

/-- Read an unsigned 32-bit little-endian value at `off`. -/
def readU32le (bs : List Nat) (off : Nat) : Nat :=
  byteAt bs off + 256 * byteAt bs (off + 1) + 65536 * byteAt bs (off + 2)
    + 16777216 * byteAt bs (off + 3)

/-- Modelled from the spec: a canonical-container decoder recovers the raw
sample payload as the bytes following the 44-byte header (spec §4.1, §8
round-trip property).  No decoder exists in the repository. -/
def wavDecodeSamples (bs : List Nat) : List Nat :=
  bs.drop 44

/-- Modelled from the spec: a canonical-container decoder reads the sample
rate as the little-endian 32-bit field at offset 24 of the header (spec
§4.1, §8 round-trip property).  No decoder exists in the repository. -/
def wavDecodeSampleRate (bs : List Nat) : Nat :=
  readU32le bs 24

/-! ### JavaScript numbers -/

/-- A JavaScript `number` as used by the aligner: an exact rational or one
of the special values `NaN`, `Infinity`, `-Infinity`. -/
inductive JSNum where
  | num (q : ℚ)
  | nan
  | inf
  | ninf
deriving DecidableEq, Inhabited

namespace JSNum

/-- JavaScript `+`. -/
def add : JSNum → JSNum → JSNum
  | nan, _ => nan
  | _, nan => nan
  | num a, num b => num (a + b)
  | inf, ninf => nan
  | ninf, inf => nan
  | inf, _ => inf
  | _, inf => inf
  | ninf, _ => ninf
  | _, ninf => ninf

/-- JavaScript `-` (binary). -/
def sub : JSNum → JSNum → JSNum
  | nan, _ => nan
  | _, nan => nan
  | num a, num b => num (a - b)
  | inf, inf => nan
  | ninf, ninf => nan
  | inf, _ => inf
  | _, inf => ninf
  | ninf, _ => ninf
  | _, ninf => inf

/-- JavaScript `*`. -/
def mul : JSNum → JSNum → JSNum
  | nan, _ => nan
  | _, nan => nan
  | num a, num b => num (a * b)
  | inf, num b => if b = 0 then nan else if 0 < b then inf else ninf
  | num a, inf => if a = 0 then nan else if 0 < a then inf else ninf
  | ninf, num b => if b = 0 then nan else if 0 < b then ninf else inf
  | num a, ninf => if a = 0 then nan else if 0 < a then ninf else inf
  | inf, inf => inf
  | inf, ninf => ninf
  | ninf, inf => ninf
  | ninf, ninf => inf

/-- JavaScript `/`; in particular `0 / 0 = NaN` and `a / 0 = ±Infinity`
for `a ≠ 0`. -/
def div : JSNum → JSNum → JSNum
  | nan, _ => nan
  | _, nan => nan
  | num a, num b =>
      if b = 0 then (if a = 0 then nan else if 0 < a then inf else ninf)
      else num (a / b)
  | inf, inf => nan
  | inf, ninf => nan
  | ninf, inf => nan
  | ninf, ninf => nan
  | inf, num b => if 0 ≤ b then inf else ninf
  | ninf, num b => if 0 ≤ b then ninf else inf
  | num _, inf => num 0
  | num _, ninf => num 0

/-- JavaScript `<=` (false whenever an operand is `NaN`). -/
def leb : JSNum → JSNum → Bool
  | nan, _ => false
  | _, nan => false
  | num a, num b => decide (a ≤ b)
  | ninf, _ => true
  | _, inf => true
  | inf, _ => false
  | _, ninf => false

end JSNum

/-! ### Data model (`types.ts` shapes used by the service module) -/

/-- One `{original, translated}` pair of the parsed Translator/Segmenter
JSON response. -/
structure RawSeg where
  original : String
  translated : String
deriving DecidableEq, Inhabited

/-- `SubtitleSegment`: one subtitle line with its time span. -/
structure SubtitleSegment where
  id : Nat
  original : String
  translated : String
  startTime : JSNum
  endTime : JSNum
deriving DecidableEq, Inhabited

/-- `GenerationResult`: the orchestrator's aggregate of base64 audio and
unaligned segments. -/
structure GenerationResult where
  audioBase64 : String
  segments : List SubtitleSegment
deriving DecidableEq, Inhabited

/-- The two UI languages. -/
inductive Language where
  | english
  | vietnamese
deriving DecidableEq, Inhabited

/-! ### Timeline aligner (`alignSegments`) -/

/-- `segments.reduce ((sum, seg) => sum + seg.original.length, 0)`. -/
def totalChars (segments : List SubtitleSegment) : Nat :=
  segments.foldl (fun sum seg => sum + seg.original.length) 0

/-- The `segments.map` loop of `alignSegments` with its captured mutable
cursor `currentTime` made explicit: each segment receives
`startTime = currentTime`,
`endTime = currentTime + (seg.original.length / total) * duration`, and the
cursor advances by the same segment duration. -/
def alignGo (total : Nat) (duration : JSNum) : JSNum → List SubtitleSegment → List SubtitleSegment
  | _, [] => []
  | t, seg :: rest =>
      let segmentDuration :=
        JSNum.mul (JSNum.div (JSNum.num (seg.original.length : ℚ)) (JSNum.num (total : ℚ))) duration
      { seg with startTime := t, endTime := JSNum.add t segmentDuration }
        :: alignGo total duration (JSNum.add t segmentDuration) rest

/-- `alignSegments` from `src/unnamed/part_000`: proportional timestamp
estimation by character count, cursor starting at `0`. -/
def alignSegments (segments : List SubtitleSegment) (duration : JSNum) : List SubtitleSegment :=
  alignGo (totalChars segments) duration (JSNum.num 0) segments

/-! ### Generation orchestrator (`translateAndSegment`, `generateSpeech`,
`processContent`) -/

/-- `translateAndSegment` from `src/unnamed/part_000`.  `api text lang`
stands for the awaited `ai.models.generateContent` call: `.error` models a
thrown exception (missing API key, network or JSON failure), `.ok none`
models a response whose `text` is absent — the code then parses the
fallback `"[]"` into an empty array — and `.ok (some raws)` models a
response parsing to `raws`.  The parsed pairs are mapped to segments with
the array index as `id` and placeholder timestamps `0`. -/
def translateAndSegment (text : String) (sourceLang : Language)
    (api : String → Language → Except String (Option (List RawSeg))) :
    Except String (List SubtitleSegment) :=
  match api text sourceLang with
  | .error e => .error e
  | .ok responseText =>
      let rawSegments := responseText.getD []
      .ok (rawSegments.enum.map (fun p =>
        ({ id := p.1, original := p.2.original, translated := p.2.translated,
           startTime := JSNum.num 0, endTime := JSNum.num 0 } : SubtitleSegment)))

/-- `generateSpeech` from `src/unnamed/part_000`.  `api text voiceName`
stands for the awaited TTS call; `.ok none` models a response with no
`inlineData.data`, upon which the code throws
`Error("Failed to generate audio.")`. -/
def generateSpeech (text : String) (voiceName : String)
    (api : String → String → Except String (Option String)) :
    Except String String :=
  match api text voiceName with
  | .error e => .error e
  | .ok audioData =>
      match audioData with
      | none => .error "Failed to generate audio."
      | some a => .ok a

/-- `processContent` from `src/unnamed/part_000`: translate and segment,
rebuild the full text as `segments.map (s => s.original).join(' ')`, feed it
to the TTS call, and return audio plus unaligned segments.  A failure in
either awaited step propagates and nothing is returned. -/
def processContent (text : String) (language : Language) (voiceName : String)
    (translateApi : String → Language → Except String (Option (List RawSeg)))
    (speechApi : String → String → Except String (Option String)) :
    Except String GenerationResult :=
  match translateAndSegment text language translateApi with
  | .error e => .error e
  | .ok segments =>
      let fullTextToSpeak := String.intercalate " " (segments.map (fun s => s.original))
      match generateSpeech fullTextToSpeak voiceName speechApi with
      | .error e => .error e
      | .ok audioBase64 => .ok { audioBase64 := audioBase64, segments := segments }

/-! ### App state and handlers (`src/App.tsx`) -/

/-- The React state of `App` together with the mutable state of the
`HTMLAudioElement` it drives (`audioSrc`/`audioPaused`/`audioCurrentTime`
mirror `audioRef.current.src`/`.paused`/`.currentTime`; a cleared `src`
(`""` / no object URL) is `none`). -/
structure AppState where
  inputText : String
  selectedLang : Language
  selectedVoiceName : String
  isGenerating : Bool
  audioUrl : Option String
  segments : List SubtitleSegment
  currentTime : ℚ
  duration : ℚ
  playbackRate : ℚ
  volume : ℚ
  audioSrc : Option String
  audioPaused : Bool
  audioCurrentTime : ℚ

/-- The blank-input guard `!inputText.trim()` of `handleGenerate`: a
JavaScript string trims to the empty (falsy) string exactly when every one
of its characters is whitespace, which is the form used here (Lean's own
`String.trim` is defined by well-founded recursion and is awkward to
evaluate in proofs). -/
def jsTrimEmpty (s : String) : Bool :=
  s.data.all Char.isWhitespace

/-- `handleGenerate` from `src/App.tsx`.  It returns early on blank input;
otherwise it first clears the player state (`setAudioUrl(null)`,
`setSegments([])`, `setCurrentTime(0)`, `setDuration(0)`, pausing the audio
element and clearing its `src`), then runs `processContent`; on success it
installs the object URL of the freshly encoded blob (`mkUrl` models
`URL.createObjectURL (base64ToWavBlob ...)`), on a caught failure it only
alerts, leaving the already-cleared state. -/
def handleGenerate (translateApi : String → Language → Except String (Option (List RawSeg)))
    (speechApi : String → String → Except String (Option String))
    (mkUrl : String → String) (st : AppState) : AppState :=
  if jsTrimEmpty st.inputText then st
  else
    let cleared : AppState :=
      { st with
        isGenerating := true, audioUrl := none, segments := [],
        currentTime := 0, duration := 0,
        audioPaused := true, audioSrc := none }
    match processContent st.inputText st.selectedLang st.selectedVoiceName translateApi speechApi with
    | .ok result =>
        let url := mkUrl result.audioBase64
        { cleared with
          audioUrl := some url, segments := result.segments,
          audioSrc := some url, isGenerating := false }
    | .error _ =>
        { cleared with isGenerating := false }

/-- `handleSeek` from `src/App.tsx`: assigns the requested time to the
audio element and to the `currentTime` state, with no clamping. -/
def handleSeek (time : ℚ) (st : AppState) : AppState :=
  { st with audioCurrentTime := time, currentTime := time }

/-- `skip` from `src/App.tsx`:
`audio.currentTime = Math.min(Math.max(audio.currentTime + amount, 0), duration)`. -/
def skip (amount : ℚ) (st : AppState) : AppState :=
  { st with audioCurrentTime := min (max (st.audioCurrentTime + amount) 0) st.duration }

/-! ## Helper lemmas -/

@[simp] lemma byteAt_cons_zero (b : Nat) (bs : List Nat) : byteAt (b :: bs) 0 = b := rfl

@[simp] lemma byteAt_cons_succ (b : Nat) (bs : List Nat) (n : Nat) :
    byteAt (b :: bs) (n + 1) = byteAt bs n := rfl

/-- The encoder output, flattened to its 44 header bytes followed by the
payload. -/
lemma base64ToWavBlob_cons (payload : List Nat) (r : Nat) :
    base64ToWavBlob payload r =
      82 :: 73 :: 70 :: 70 ::
      ((36 + payload.length) % 256) :: ((36 + payload.length) / 256 % 256) ::
      ((36 + payload.length) / 65536 % 256) :: ((36 + payload.length) / 16777216 % 256) ::
      87 :: 65 :: 86 :: 69 :: 102 :: 109 :: 116 :: 32 ::
      16 :: 0 :: 0 :: 0 :: 1 :: 0 :: 1 :: 0 ::
      (r % 256) :: (r / 256 % 256) :: (r / 65536 % 256) :: (r / 16777216 % 256) ::
      (r * 2 % 256) :: (r * 2 / 256 % 256) :: (r * 2 / 65536 % 256) :: (r * 2 / 16777216 % 256) ::
      2 :: 0 :: 16 :: 0 ::
      100 :: 97 :: 116 :: 97 ::
      (payload.length % 256) :: (payload.length / 256 % 256) ::
      (payload.length / 65536 % 256) :: (payload.length / 16777216 % 256) :: payload := by
  simp [base64ToWavBlob, wavHeader, u32le, u16le]

/-! ## Claim C1: WAV header fields -/

/-- C1, counterexample: the claim quantifies over *every* positive sample
rate, but `setUint32` truncates modulo `2^32`; at sample rate `2^31` the
byte-rate field holds `(2^31 * 2) mod 2^32 = 0`, not
`sampleRate * blockAlign = 2^32`. -/
theorem c1_byteRate_overflow_counterexample :
    readU32le (base64ToWavBlob [] 2147483648) 28 = 0 ∧
    (0 : Nat) ≠ 2147483648 * 2 := by
  constructor
  · decide
  · decide

/-- C1 (amended: sample rates with `2 * sampleRate < 2^32` and payloads
with `36 + length < 2^32`, so that no 32-bit header field overflows): for
every raw sample byte sequence (including the empty one) the encoder
emits the `'RIFF'` tag, file size minus 8 (`36 + length`), the `'WAVE'`
and `'fmt '` tags, fmt-chunk length 16, PCM code 1, channel count 1, the
given sample rate, byte rate `sampleRate * 2`, block align 2,
bits-per-sample 16, the `'data'` tag, and the exact payload length —
all little-endian at their documented offsets. -/
theorem c1_header_fields (payload : List Nat) (r : Nat) (hr : 0 < r)
    (hr32 : 2 * r < 4294967296) (hlen : 36 + payload.length < 4294967296) :
    (base64ToWavBlob payload r).take 4 = [82, 73, 70, 70] ∧
    readU32le (base64ToWavBlob payload r) 4 = 36 + payload.length ∧
    ((base64ToWavBlob payload r).drop 8).take 4 = [87, 65, 86, 69] ∧
    ((base64ToWavBlob payload r).drop 12).take 4 = [102, 109, 116, 32] ∧
    readU32le (base64ToWavBlob payload r) 16 = 16 ∧
    readU16le (base64ToWavBlob payload r) 20 = 1 ∧
    readU16le (base64ToWavBlob payload r) 22 = 1 ∧
    readU32le (base64ToWavBlob payload r) 24 = r ∧
    readU32le (base64ToWavBlob payload r) 28 = r * 2 ∧
    readU16le (base64ToWavBlob payload r) 32 = 2 ∧
    readU16le (base64ToWavBlob payload r) 34 = 16 ∧
    ((base64ToWavBlob payload r).drop 36).take 4 = [100, 97, 116, 97] ∧
    readU32le (base64ToWavBlob payload r) 40 = payload.length ∧
    (base64ToWavBlob payload r).length = 44 + payload.length := by
  rw [base64ToWavBlob_cons]
  refine ⟨?_, ?_, ?_, ?_, ?_, ?_, ?_, ?_, ?_, ?_, ?_, ?_, ?_, ?_⟩ <;>
    simp [readU32le, readU16le] <;> omega

/-- C1, witness: the header theorem applied to the empty payload at the
default sample rate 24000 — a zero-length payload still yields a valid
header declaring zero data bytes. -/
theorem c1_header_fields_witness :
    (base64ToWavBlob [] 24000).take 4 = [82, 73, 70, 70] ∧
    readU32le (base64ToWavBlob [] 24000) 4 = 36 ∧
    ((base64ToWavBlob [] 24000).drop 8).take 4 = [87, 65, 86, 69] ∧
    ((base64ToWavBlob [] 24000).drop 12).take 4 = [102, 109, 116, 32] ∧
    readU32le (base64ToWavBlob [] 24000) 16 = 16 ∧
    readU16le (base64ToWavBlob [] 24000) 20 = 1 ∧
    readU16le (base64ToWavBlob [] 24000) 22 = 1 ∧
    readU32le (base64ToWavBlob [] 24000) 24 = 24000 ∧
    readU32le (base64ToWavBlob [] 24000) 28 = 24000 * 2 ∧
    readU16le (base64ToWavBlob [] 24000) 32 = 2 ∧
    readU16le (base64ToWavBlob [] 24000) 34 = 16 ∧
    ((base64ToWavBlob [] 24000).drop 36).take 4 = [100, 97, 116, 97] ∧
    readU32le (base64ToWavBlob [] 24000) 40 = 0 ∧
    (base64ToWavBlob [] 24000).length = 44 :=
  c1_header_fields [] 24000 (by decide) (by decide) (by decide)

/-! ## Claim C2: encode/decode round-trip -/

/-- C2, counterexample: at the positive sample rate `2^32` the stored
sample-rate field is `2^32 mod 2^32 = 0`, so decoding does not recover the
given rate. -/
theorem c2_roundtrip_counterexample :
    wavDecodeSampleRate (base64ToWavBlob [] 4294967296) = 0 ∧
    (0 : Nat) ≠ 4294967296 := by
  constructor
  · decide
  · decide

/-- C2 (amended: sample rates below `2^32`, so that the 32-bit rate field
does not overflow): the output is a 44-byte header followed by the payload
bytes unmodified and in order, and decoding recovers the samples and the
sample rate. -/
theorem c2_roundtrip (b : List Nat) (r : Nat) (hr : 0 < r)
    (hr32 : r < 4294967296) :
    (base64ToWavBlob b r).length = 44 + b.length ∧
    wavDecodeSamples (base64ToWavBlob b r) = b ∧
    wavDecodeSampleRate (base64ToWavBlob b r) = r := by
  rw [wavDecodeSamples, wavDecodeSampleRate, base64ToWavBlob_cons]
  refine ⟨?_, ?_, ?_⟩ <;> simp [readU32le] <;> omega

/-- C2, witness: round-trip at a 2-byte payload and rate 8000. -/
theorem c2_roundtrip_witness :
    (base64ToWavBlob [7, 9] 8000).length = 46 ∧
    wavDecodeSamples (base64ToWavBlob [7, 9] 8000) = [7, 9] ∧
    wavDecodeSampleRate (base64ToWavBlob [7, 9] 8000) = 8000 :=
  c2_roundtrip [7, 9] 8000 (by decide) (by decide)

/-! ## Claim C3: concrete 4-byte encoding scenario -/

/-- C3, counterexample: bytes 36..44 do *not* hold the
sampleRate/byteRate/blockAlign/bitsPerSample fields — offset 36 holds the
`'data'` tag (little-endian value 1635017060) and offset 40 the data
length 4; the four fields live at offsets 24, 28, 32, 34. -/
theorem c3_offsets_counterexample :
    readU32le (base64ToWavBlob [0, 1, 2, 3] 24000) 36 = 1635017060 ∧
    (1635017060 : Nat) ≠ 24000 ∧
    readU32le (base64ToWavBlob [0, 1, 2, 3] 24000) 40 = 4 ∧
    (4 : Nat) ≠ 48000 := by
  refine ⟨?_, ?_, ?_, ?_⟩ <;> decide

/-- C3 (amended: the four fields are read at their documented offsets 24,
28, 32 and 34, not at bytes 36..44): encoding `[0x00,0x01,0x02,0x03]` at
24000 Hz yields 48 output bytes with sampleRate 24000, byteRate 48000,
blockAlign 2 and bitsPerSample 16. -/
theorem c3_concrete_fields :
    (base64ToWavBlob [0, 1, 2, 3] 24000).length = 48 ∧
    readU32le (base64ToWavBlob [0, 1, 2, 3] 24000) 24 = 24000 ∧
    readU32le (base64ToWavBlob [0, 1, 2, 3] 24000) 28 = 48000 ∧
    readU16le (base64ToWavBlob [0, 1, 2, 3] 24000) 32 = 2 ∧
    readU16le (base64ToWavBlob [0, 1, 2, 3] 24000) 34 = 16 := by
  refine ⟨?_, ?_, ?_, ?_, ?_⟩ <;> decide

/-! ## JSNum lemmas -/

namespace JSNum

@[simp] lemma add_num_num (a b : ℚ) : add (num a) (num b) = num (a + b) := rfl

@[simp] lemma sub_num_num (a b : ℚ) : sub (num a) (num b) = num (a - b) := rfl

@[simp] lemma mul_num_num (a b : ℚ) : mul (num a) (num b) = num (a * b) := rfl

@[simp] lemma nan_mul (x : JSNum) : mul nan x = nan := by cases x <;> rfl

@[simp] lemma nan_add (x : JSNum) : add nan x = nan := by cases x <;> rfl

@[simp] lemma add_nan (x : JSNum) : add x nan = nan := by cases x <;> rfl

lemma div_num_num (a b : ℚ) (hb : b ≠ 0) : div (num a) (num b) = num (a / b) := by
  simp [div, hb]

@[simp] lemma div_zero_zero : div (num 0) (num 0) = nan := by simp [div]

@[simp] lemma leb_num_num (a b : ℚ) : leb (num a) (num b) = decide (a ≤ b) := rfl

end JSNum

/-! ## Aligner lemmas -/

lemma totalChars_shift (a : Nat) (segs : List SubtitleSegment) :
    segs.foldl (fun sum seg => sum + seg.original.length) a
      = a + segs.foldl (fun sum seg => sum + seg.original.length) 0 := by
  induction segs generalizing a with
  | nil => simp
  | cons s rest ih =>
      simp only [List.foldl_cons]
      rw [ih (a + s.original.length), ih (0 + s.original.length)]
      omega

lemma totalChars_cons (s : SubtitleSegment) (rest : List SubtitleSegment) :
    totalChars (s :: rest) = s.original.length + totalChars rest := by
  simp only [totalChars, List.foldl_cons]
  simpa using totalChars_shift s.original.length rest

/-- Characters of the first `i` segments: the prefix sums driving the
aligner's cursor. -/
def charsBefore : List SubtitleSegment → Nat → Nat
  | _, 0 => 0
  | [], _ + 1 => 0
  | seg :: rest, i + 1 => seg.original.length + charsBefore rest i

@[simp] lemma charsBefore_zero (segs : List SubtitleSegment) : charsBefore segs 0 = 0 := by
  cases segs <;> rfl

@[simp] lemma charsBefore_cons_succ (s : SubtitleSegment) (rest : List SubtitleSegment) (i : Nat) :
    charsBefore (s :: rest) (i + 1) = s.original.length + charsBefore rest i := rfl

lemma charsBefore_mono (segs : List SubtitleSegment) (i : Nat) :
    charsBefore segs i ≤ charsBefore segs (i + 1) := by
  induction segs generalizing i with
  | nil => cases i <;> simp [charsBefore]
  | cons s rest ih =>
      cases i with
      | zero => simp
      | succ i => simpa using ih i

lemma charsBefore_length (segs : List SubtitleSegment) :
    charsBefore segs segs.length = totalChars segs := by
  induction segs with
  | nil => simp [totalChars]
  | cons s rest ih => simp [totalChars_cons, ih]

lemma charsBefore_succ_getD (segs : List SubtitleSegment) (i : Nat) (hi : i < segs.length) :
    charsBefore segs (i + 1)
      = charsBefore segs i + (segs.getD i default).original.length := by
  induction segs generalizing i with
  | nil => simp at hi
  | cons s rest ih =>
      cases i with
      | zero => simp [List.getD]
      | succ i =>
          have := ih i (by simpa using hi)
          simp [List.getD] at this ⊢
          omega

lemma alignGo_length (total : Nat) (d : JSNum) (t : JSNum) (segs : List SubtitleSegment) :
    (alignGo total d t segs).length = segs.length := by
  induction segs generalizing t with
  | nil => rfl
  | cons s rest ih => simp [alignGo, ih]

lemma alignGo_map_original (total : Nat) (d : JSNum) (t : JSNum) (segs : List SubtitleSegment) :
    (alignGo total d t segs).map (fun s => s.original) = segs.map (fun s => s.original) := by
  induction segs generalizing t with
  | nil => rfl
  | cons s rest ih => simp [alignGo, ih]

lemma alignGo_map_translated (total : Nat) (d : JSNum) (t : JSNum) (segs : List SubtitleSegment) :
    (alignGo total d t segs).map (fun s => s.translated) = segs.map (fun s => s.translated) := by
  induction segs generalizing t with
  | nil => rfl
  | cons s rest ih => simp [alignGo, ih]

/-- Closed form of the aligner when the total character count is nonzero:
element `i` starts at `c + (charsBefore i / total) * duration` and ends at
`c + (charsBefore (i+1) / total) * duration`. -/
lemma alignGo_getD (total : Nat) (hT : (total : ℚ) ≠ 0) (dur : ℚ)
    (segs : List SubtitleSegment) :
    ∀ (c : ℚ) (i : Nat), i < segs.length →
      ((alignGo total (JSNum.num dur) (JSNum.num c) segs).getD i default).startTime
          = JSNum.num (c + ((charsBefore segs i : ℚ) / (total : ℚ)) * dur)
      ∧ ((alignGo total (JSNum.num dur) (JSNum.num c) segs).getD i default).endTime
          = JSNum.num (c + ((charsBefore segs (i + 1) : ℚ) / (total : ℚ)) * dur) := by
  induction segs with
  | nil => intro c i hi; simp at hi
  | cons s rest ih =>
      intro c i hi
      cases i with
      | zero =>
          constructor
          · simp [alignGo, List.getD]
          · simp [alignGo, List.getD, JSNum.div_num_num _ _ hT]
      | succ i =>
          have hi' : i < rest.length := by simpa using hi
          have := ih (c + ((s.original.length : ℚ) / (total : ℚ)) * dur) i hi'
          constructor
          · rw [show ((alignGo total (JSNum.num dur) (JSNum.num c) (s :: rest)).getD (i+1) default)
                = ((alignGo total (JSNum.num dur)
                    (JSNum.num (c + ((s.original.length : ℚ) / (total : ℚ)) * dur)) rest).getD i default) by
                simp [alignGo, List.getD, JSNum.div_num_num _ _ hT]]
            rw [this.1, charsBefore_cons_succ]
            push_cast
            rw [add_div, add_mul]
            ring_nf
          · rw [show ((alignGo total (JSNum.num dur) (JSNum.num c) (s :: rest)).getD (i+1) default)
                = ((alignGo total (JSNum.num dur)
                    (JSNum.num (c + ((s.original.length : ℚ) / (total : ℚ)) * dur)) rest).getD i default) by
                simp [alignGo, List.getD, JSNum.div_num_num _ _ hT]]
            rw [this.2, charsBefore_cons_succ]
            push_cast
            rw [add_div, add_mul]
            ring_nf

/-! ## Claim C4: alignment produces a contiguous partition of the timeline -/

/-- C4: for every non-empty segment list with positive total
source-character count and duration `≥ 0`, `alignSegments` returns a list
of the same length and order (same text fields), with non-decreasing start
times, each end time equal to the next start time, first start time `0`,
and last end time exactly the given duration (exact in the rational model
of JavaScript numbers, hence within any floating-point tolerance). -/
theorem c4_alignment (segs : List SubtitleSegment) (dur : ℚ)
    (hne : segs ≠ []) (hT : 0 < totalChars segs) (hdur : 0 ≤ dur) :
    (alignSegments segs (JSNum.num dur)).length = segs.length ∧
    (alignSegments segs (JSNum.num dur)).map (fun s => s.original)
      = segs.map (fun s => s.original) ∧
    (alignSegments segs (JSNum.num dur)).map (fun s => s.translated)
      = segs.map (fun s => s.translated) ∧
    List.Chain' (fun a b => JSNum.leb a.startTime b.startTime = true)
      (alignSegments segs (JSNum.num dur)) ∧
    List.Chain' (fun a b => a.endTime = b.startTime) (alignSegments segs (JSNum.num dur)) ∧
    ((alignSegments segs (JSNum.num dur)).getD 0 default).startTime = JSNum.num 0 ∧
    ((alignSegments segs (JSNum.num dur)).getD (segs.length - 1) default).endTime
      = JSNum.num dur := by
  have hT0 : ((totalChars segs : ℚ)) ≠ 0 := Nat.cast_ne_zero.mpr hT.ne'
  have hTpos : (0 : ℚ) < (totalChars segs : ℚ) := by exact_mod_cast hT
  have hlenpos : 0 < segs.length := List.length_pos.mpr hne
  have key := alignGo_getD (totalChars segs) hT0 dur segs 0
  have hlen : (alignSegments segs (JSNum.num dur)).length = segs.length := by
    simp [alignSegments, alignGo_length]
  refine ⟨hlen, ?_, ?_, ?_, ?_, ?_, ?_⟩
  · simp [alignSegments, alignGo_map_original]
  · simp [alignSegments, alignGo_map_translated]
  · rw [List.chain'_iff_get]
    intro i hi
    have hi1 : i < segs.length := by omega
    have hi2 : i + 1 < segs.length := by rw [hlen] at hi; omega
    rw [← List.getD_eq_get (d := default), ← List.getD_eq_get (d := default)]
    simp only [alignSegments]
    rw [(key i hi1).1, (key (i + 1) hi2).1]
    simp only [JSNum.leb_num_num, decide_eq_true_eq, zero_add]
    exact mul_le_mul_of_nonneg_right
      ((div_le_div_right hTpos).mpr (Nat.cast_le.mpr (charsBefore_mono segs i))) hdur
  · rw [List.chain'_iff_get]
    intro i hi
    have hi1 : i < segs.length := by omega
    have hi2 : i + 1 < segs.length := by rw [hlen] at hi; omega
    rw [← List.getD_eq_get (d := default), ← List.getD_eq_get (d := default)]
    simp only [alignSegments]
    rw [(key i hi1).2, (key (i + 1) hi2).1]
  · simp only [alignSegments]
    rw [(key 0 hlenpos).1]
    simp
  · simp only [alignSegments]
    rw [(key (segs.length - 1) (by omega)).2]
    rw [Nat.sub_add_cancel hlenpos, charsBefore_length, div_self hT0]
    simp

/-- C4, witness: the alignment contract at two segments of lengths 2 and 1
with duration 3. -/
theorem c4_alignment_witness :
    (alignSegments [⟨0, "ab", "xy", JSNum.num 0, JSNum.num 0⟩,
        ⟨1, "c", "z", JSNum.num 0, JSNum.num 0⟩] (JSNum.num 3)).length = 2 ∧
    (alignSegments [⟨0, "ab", "xy", JSNum.num 0, JSNum.num 0⟩,
        ⟨1, "c", "z", JSNum.num 0, JSNum.num 0⟩] (JSNum.num 3)).map (fun s => s.original)
      = ["ab", "c"] ∧
    (alignSegments [⟨0, "ab", "xy", JSNum.num 0, JSNum.num 0⟩,
        ⟨1, "c", "z", JSNum.num 0, JSNum.num 0⟩] (JSNum.num 3)).map (fun s => s.translated)
      = ["xy", "z"] ∧
    List.Chain' (fun a b => JSNum.leb a.startTime b.startTime = true)
      (alignSegments [⟨0, "ab", "xy", JSNum.num 0, JSNum.num 0⟩,
        ⟨1, "c", "z", JSNum.num 0, JSNum.num 0⟩] (JSNum.num 3)) ∧
    List.Chain' (fun a b => a.endTime = b.startTime)
      (alignSegments [⟨0, "ab", "xy", JSNum.num 0, JSNum.num 0⟩,
        ⟨1, "c", "z", JSNum.num 0, JSNum.num 0⟩] (JSNum.num 3)) ∧
    ((alignSegments [⟨0, "ab", "xy", JSNum.num 0, JSNum.num 0⟩,
        ⟨1, "c", "z", JSNum.num 0, JSNum.num 0⟩] (JSNum.num 3)).getD 0 default).startTime
      = JSNum.num 0 ∧
    ((alignSegments [⟨0, "ab", "xy", JSNum.num 0, JSNum.num 0⟩,
        ⟨1, "c", "z", JSNum.num 0, JSNum.num 0⟩] (JSNum.num 3)).getD 1 default).endTime
      = JSNum.num 3 :=
  c4_alignment
    [⟨0, "ab", "xy", JSNum.num 0, JSNum.num 0⟩, ⟨1, "c", "z", JSNum.num 0, JSNum.num 0⟩]
    3 (by simp) (by decide) (by norm_num)

/-! ## Claim C5: alignment is proportional to source length -/

/-- C5: with positive total character count and positive duration, the
ratio of two aligned segments' durations (computed with JavaScript
subtraction and division) equals the ratio of their source lengths; in
particular the `"Hello"` / `"World!!"` list with duration 12 is aligned to
spans `[0, 5]` and `[5, 12]`. -/
theorem c5_proportional (segs : List SubtitleSegment) (dur : ℚ) (i j : Nat)
    (hT : 0 < totalChars segs) (hdur : 0 < dur)
    (hi : i < segs.length) (hj : j < segs.length)
    (hLi : 0 < (segs.getD i default).original.length)
    (hLj : 0 < (segs.getD j default).original.length) :
    JSNum.div
      (JSNum.sub (((alignSegments segs (JSNum.num dur)).getD i default).endTime)
        (((alignSegments segs (JSNum.num dur)).getD i default).startTime))
      (JSNum.sub (((alignSegments segs (JSNum.num dur)).getD j default).endTime)
        (((alignSegments segs (JSNum.num dur)).getD j default).startTime))
      = JSNum.num (((segs.getD i default).original.length : ℚ)
          / ((segs.getD j default).original.length : ℚ)) ∧
    alignSegments
        [⟨0, "Hello", "", JSNum.num 0, JSNum.num 0⟩,
         ⟨1, "World!!", "", JSNum.num 0, JSNum.num 0⟩] (JSNum.num 12)
      = [⟨0, "Hello", "", JSNum.num 0, JSNum.num 5⟩,
         ⟨1, "World!!", "", JSNum.num 5, JSNum.num 12⟩] := by
  constructor
  · have hT0 : ((totalChars segs : ℚ)) ≠ 0 := Nat.cast_ne_zero.mpr hT.ne'
    have hTpos : (0 : ℚ) < (totalChars segs : ℚ) := by exact_mod_cast hT
    have key := alignGo_getD (totalChars segs) hT0 dur segs 0
    have hdiff : ∀ k : Nat, k < segs.length →
        ((0 : ℚ) + ((charsBefore segs (k + 1) : ℚ) / (totalChars segs : ℚ)) * dur)
          - (0 + ((charsBefore segs k : ℚ) / (totalChars segs : ℚ)) * dur)
          = (((segs.getD k default).original.length : ℚ) / (totalChars segs : ℚ)) * dur := by
      intro k hk
      rw [charsBefore_succ_getD segs k hk]
      push_cast
      rw [add_div, add_mul]
      ring
    simp only [alignSegments]
    rw [(key i hi).1, (key i hi).2, (key j hj).1, (key j hj).2,
      JSNum.sub_num_num, JSNum.sub_num_num, hdiff i hi, hdiff j hj]
    have hLjQ : (0 : ℚ) < ((segs.getD j default).original.length : ℚ) := by exact_mod_cast hLj
    have hden : (((segs.getD j default).original.length : ℚ) / (totalChars segs : ℚ)) * dur ≠ 0 :=
      (mul_pos (div_pos hLjQ hTpos) hdur).ne'
    rw [JSNum.div_num_num _ _ hden]
    congr 1
    rw [mul_div_mul_right _ _ hdur.ne', div_div_div_cancel_right₀ hT0]
  · have ht : totalChars
        [⟨0, "Hello", "", JSNum.num 0, JSNum.num 0⟩,
         ⟨1, "World!!", "", JSNum.num 0, JSNum.num 0⟩] = 12 := rfl
    simp only [alignSegments, ht, alignGo]
    norm_num [JSNum.div, JSNum.mul, JSNum.add,
      show "Hello".length = 5 from rfl, show "World!!".length = 7 from rfl]

/-- C5, witness: the proportionality theorem applied to the
`"Hello"` / `"World!!"` scenario itself (lengths 5 and 7, duration 12). -/
theorem c5_proportional_witness :
    JSNum.div
      (JSNum.sub (((alignSegments
          [⟨0, "Hello", "", JSNum.num 0, JSNum.num 0⟩,
           ⟨1, "World!!", "", JSNum.num 0, JSNum.num 0⟩] (JSNum.num 12)).getD 0 default).endTime)
        (((alignSegments
          [⟨0, "Hello", "", JSNum.num 0, JSNum.num 0⟩,
           ⟨1, "World!!", "", JSNum.num 0, JSNum.num 0⟩] (JSNum.num 12)).getD 0 default).startTime))
      (JSNum.sub (((alignSegments
          [⟨0, "Hello", "", JSNum.num 0, JSNum.num 0⟩,
           ⟨1, "World!!", "", JSNum.num 0, JSNum.num 0⟩] (JSNum.num 12)).getD 1 default).endTime)
        (((alignSegments
          [⟨0, "Hello", "", JSNum.num 0, JSNum.num 0⟩,
           ⟨1, "World!!", "", JSNum.num 0, JSNum.num 0⟩] (JSNum.num 12)).getD 1 default).startTime))
      = JSNum.num (((5 : ℚ)) / ((7 : ℚ))) ∧
    alignSegments
        [⟨0, "Hello", "", JSNum.num 0, JSNum.num 0⟩,
         ⟨1, "World!!", "", JSNum.num 0, JSNum.num 0⟩] (JSNum.num 12)
      = [⟨0, "Hello", "", JSNum.num 0, JSNum.num 5⟩,
         ⟨1, "World!!", "", JSNum.num 5, JSNum.num 12⟩] :=
  c5_proportional
    [⟨0, "Hello", "", JSNum.num 0, JSNum.num 0⟩, ⟨1, "World!!", "", JSNum.num 0, JSNum.num 0⟩]
    12 0 1 (by decide) (by norm_num) (by decide) (by decide) (by decide) (by decide)

/-! ## Claim C10: all-empty source texts divide zero by zero -/

lemma totalChars_eq_zero (segs : List SubtitleSegment)
    (h : ∀ s ∈ segs, s.original.length = 0) : totalChars segs = 0 := by
  induction segs with
  | nil => rfl
  | cons s rest ih =>
      rw [totalChars_cons, h s (List.mem_cons_self _ _),
        ih fun x hx => h x (List.mem_cons_of_mem s hx)]

lemma alignGo_nan (d : JSNum) :
    ∀ segs : List SubtitleSegment, (∀ s ∈ segs, s.original.length = 0) →
      (alignGo 0 d JSNum.nan segs).map (fun s => s.startTime)
          = List.replicate segs.length JSNum.nan ∧
      (alignGo 0 d JSNum.nan segs).map (fun s => s.endTime)
          = List.replicate segs.length JSNum.nan := by
  intro segs
  induction segs with
  | nil => intro _; simp [alignGo]
  | cons s rest ih =>
      intro h
      have hs : s.original.length = 0 := h s (List.mem_cons_self _ _)
      have hrest := ih fun x hx => h x (List.mem_cons_of_mem s hx)
      simp [alignGo, hs, hrest.1, hrest.2, List.replicate_succ]

/-- C10, counterexample: on a single segment with empty source text the
aligner's `0 / 0` poisons the end time, but the *first* segment's start
time is the initial cursor `0`, a finite number — so not every returned
time is NaN. -/
theorem c10_counterexample :
    alignSegments [⟨0, "", "", JSNum.num 0, JSNum.num 0⟩] (JSNum.num 5)
      = [⟨0, "", "", JSNum.num 0, JSNum.nan⟩] ∧ JSNum.num 0 ≠ JSNum.nan := by
  constructor
  · simp [alignSegments, alignGo, totalChars, JSNum.div, JSNum.mul, JSNum.add]
  · simp

/-- C10 (amended: the unguarded `0 / 0` makes every *end* time and every
start time *except the first* NaN; the first start time is the cursor's
initial finite `0`): for every non-empty list whose source texts are all
empty and any duration, there is no defined fallback — the times are
poisoned by NaN. -/
theorem c10_nan_times (segs : List SubtitleSegment) (d : JSNum)
    (hne : segs ≠ []) (hempty : ∀ s ∈ segs, s.original.length = 0) :
    (alignSegments segs d).map (fun s => s.endTime)
        = List.replicate segs.length JSNum.nan ∧
    (alignSegments segs d).map (fun s => s.startTime)
        = JSNum.num 0 :: List.replicate (segs.length - 1) JSNum.nan := by
  obtain ⟨s, rest, rfl⟩ : ∃ s rest, segs = s :: rest := by
    cases segs with
    | nil => exact absurd rfl hne
    | cons s rest => exact ⟨s, rest, rfl⟩
  have h0 : totalChars (s :: rest) = 0 := totalChars_eq_zero _ hempty
  have hs : s.original.length = 0 := hempty s (List.mem_cons_self _ _)
  have hrest := alignGo_nan d rest fun x hx => hempty x (List.mem_cons_of_mem s hx)
  simp only [alignSegments, h0]
  simp [alignGo, hs, hrest.1, hrest.2, List.replicate_succ]

/-- C10, witness: two empty-source segments at duration 7. -/
theorem c10_nan_times_witness :
    (alignSegments [⟨0, "", "", JSNum.num 0, JSNum.num 0⟩,
        ⟨1, "", "", JSNum.num 0, JSNum.num 0⟩] (JSNum.num 7)).map (fun s => s.endTime)
        = List.replicate 2 JSNum.nan ∧
    (alignSegments [⟨0, "", "", JSNum.num 0, JSNum.num 0⟩,
        ⟨1, "", "", JSNum.num 0, JSNum.num 0⟩] (JSNum.num 7)).map (fun s => s.startTime)
        = JSNum.num 0 :: List.replicate 1 JSNum.nan :=
  c10_nan_times
    [⟨0, "", "", JSNum.num 0, JSNum.num 0⟩, ⟨1, "", "", JSNum.num 0, JSNum.num 0⟩]
    (JSNum.num 7) (by simp) (by decide)

/-! ## Orchestrator lemmas -/

lemma enum_segments_map_id (raws : List RawSeg) :
    ((raws.enum.map (fun p =>
      ({ id := p.1, original := p.2.original, translated := p.2.translated,
         startTime := JSNum.num 0, endTime := JSNum.num 0 } : SubtitleSegment)))).map
        (fun s => s.id)
      = List.range raws.length := by
  rw [List.range_eq_range']
  show ((raws.enumFrom 0).map _).map _ = _
  generalize 0 = n
  induction raws generalizing n with
  | nil => rfl
  | cons r rest ih => simp [List.enumFrom, List.range'_succ, ih]

lemma enum_segments_map_startTime (raws : List RawSeg) :
    ((raws.enum.map (fun p =>
      ({ id := p.1, original := p.2.original, translated := p.2.translated,
         startTime := JSNum.num 0, endTime := JSNum.num 0 } : SubtitleSegment)))).map
        (fun s => s.startTime)
      = List.replicate raws.length (JSNum.num 0) := by
  show ((raws.enumFrom 0).map _).map _ = _
  generalize 0 = n
  induction raws generalizing n with
  | nil => rfl
  | cons r rest ih => simp [List.enumFrom, List.replicate_succ, ih]

lemma enum_segments_map_endTime (raws : List RawSeg) :
    ((raws.enum.map (fun p =>
      ({ id := p.1, original := p.2.original, translated := p.2.translated,
         startTime := JSNum.num 0, endTime := JSNum.num 0 } : SubtitleSegment)))).map
        (fun s => s.endTime)
      = List.replicate raws.length (JSNum.num 0) := by
  show ((raws.enumFrom 0).map _).map _ = _
  generalize 0 = n
  induction raws generalizing n with
  | nil => rfl
  | cons r rest ih => simp [List.enumFrom, List.replicate_succ, ih]

lemma enum_segments_map_original (raws : List RawSeg) :
    ((raws.enum.map (fun p =>
      ({ id := p.1, original := p.2.original, translated := p.2.translated,
         startTime := JSNum.num 0, endTime := JSNum.num 0 } : SubtitleSegment)))).map
        (fun s => s.original)
      = raws.map (fun p => p.original) := by
  show ((raws.enumFrom 0).map _).map _ = _
  generalize 0 = n
  induction raws generalizing n with
  | nil => rfl
  | cons r rest ih => simp [List.enumFrom, ih]

/-! ## Claim C6: sequential ids, zero timestamps, joined text to the TTS -/

/-- C6: for any input text, language and voice, when the Translator
response parses to `raws` the orchestrator's segments carry the sequential
indices `0, 1, 2, ...` and zero start/end timestamps, and `processContent`
depends on the Speech Synthesizer only through its value at the
space-joined source texts of the segments — two synthesizers agreeing on
that one string (but nowhere else, e.g. not on the raw user input) produce
identical results, i.e. the synthesizer is invoked exactly on the joined
text and not on the user's original input. -/
theorem c6_orchestrator (text : String) (lang : Language) (voiceName : String)
    (trans : String → Language → Except String (Option (List RawSeg)))
    (raws : List RawSeg)
    (s1 s2 : String → String → Except String (Option String))
    (htrans : trans text lang = .ok (some raws))
    (hagree : s1 (String.intercalate " " (raws.map (fun p => p.original))) voiceName
            = s2 (String.intercalate " " (raws.map (fun p => p.original))) voiceName) :
    Except.map (fun segs => segs.map (fun s => s.id)) (translateAndSegment text lang trans)
      = .ok (List.range raws.length) ∧
    Except.map (fun segs => segs.map (fun s => s.startTime)) (translateAndSegment text lang trans)
      = .ok (List.replicate raws.length (JSNum.num 0)) ∧
    Except.map (fun segs => segs.map (fun s => s.endTime)) (translateAndSegment text lang trans)
      = .ok (List.replicate raws.length (JSNum.num 0)) ∧
    processContent text lang voiceName trans s1 = processContent text lang voiceName trans s2 := by
  have hsegs : translateAndSegment text lang trans
      = .ok (raws.enum.map (fun p =>
          ({ id := p.1, original := p.2.original, translated := p.2.translated,
             startTime := JSNum.num 0, endTime := JSNum.num 0 } : SubtitleSegment))) := by
    simp [translateAndSegment, htrans]
  refine ⟨?_, ?_, ?_, ?_⟩
  · rw [hsegs, Except.map, enum_segments_map_id]
  · rw [hsegs, Except.map, enum_segments_map_startTime]
  · rw [hsegs, Except.map, enum_segments_map_endTime]
  · simp only [processContent, hsegs, enum_segments_map_original, generateSpeech, hagree]

/-- C6, witness: a concrete two-segment translation; the second
synthesizer only answers on the joined text `"a c"` and errors on any
other input (in particular on the raw input `"hi"`), yet the results
agree. -/
theorem c6_orchestrator_witness :
    Except.map (fun segs => segs.map (fun s => s.id))
        (translateAndSegment "hi" Language.english
          (fun _ _ => .ok (some [⟨"a", "b"⟩, ⟨"c", "d"⟩])))
      = .ok [0, 1] ∧
    Except.map (fun segs => segs.map (fun s => s.startTime))
        (translateAndSegment "hi" Language.english
          (fun _ _ => .ok (some [⟨"a", "b"⟩, ⟨"c", "d"⟩])))
      = .ok [JSNum.num 0, JSNum.num 0] ∧
    Except.map (fun segs => segs.map (fun s => s.endTime))
        (translateAndSegment "hi" Language.english
          (fun _ _ => .ok (some [⟨"a", "b"⟩, ⟨"c", "d"⟩])))
      = .ok [JSNum.num 0, JSNum.num 0] ∧
    processContent "hi" Language.english "Kore"
        (fun _ _ => .ok (some [⟨"a", "b"⟩, ⟨"c", "d"⟩]))
        (fun t v => .ok (some (t ++ v)))
      = processContent "hi" Language.english "Kore"
        (fun _ _ => .ok (some [⟨"a", "b"⟩, ⟨"c", "d"⟩]))
        (fun t v => if t = "a c" then .ok (some (t ++ v)) else .error "other input") :=
  c6_orchestrator "hi" Language.english "Kore"
    (fun _ _ => .ok (some [⟨"a", "b"⟩, ⟨"c", "d"⟩])) [⟨"a", "b"⟩, ⟨"c", "d"⟩]
    (fun t v => .ok (some (t ++ v)))
    (fun t v => if t = "a c" then .ok (some (t ++ v)) else .error "other input")
    rfl rfl

/-! ## Claim C7: failure handling of the orchestrator -/

/-- C7, counterexample: a Translator response with *no usable data*
(`response.text` absent, parsed as the empty array) does **not** fail the
request — the Speech Synthesizer *is* invoked (its payload `"AUDIO"`
appears in the result) and the request succeeds with an empty segment
list. -/
theorem c7_counterexample :
    processContent "x" Language.english "v"
        (fun _ _ => .ok none) (fun _ _ => .ok (some "AUDIO"))
      = .ok { audioBase64 := "AUDIO", segments := [] } := rfl

/-- C7 (amended: a *thrown* Translator error fails the whole request with
that error and the synthesizer is never invoked; but a Translator success
with no usable data yields an empty segment list and the synthesizer *is*
invoked on the empty joined text; a thrown synthesizer error or a missing
audio payload fails the request — the latter with the distinguishable
`"Failed to generate audio."` error; in every failure case nothing but
the error is returned). -/
theorem c7_failure_propagation (text : String) (lang : Language) (voiceName : String)
    (transE transOk transNone : String → Language → Except String (Option (List RawSeg)))
    (sp spE spN : String → String → Except String (Option String))
    (e eS : String) (raws : List RawSeg)
    (h1 : transE text lang = .error e)
    (h2 : transOk text lang = .ok (some raws))
    (h3 : transNone text lang = .ok none)
    (h4 : spE (String.intercalate " " (raws.map (fun p => p.original))) voiceName = .error eS)
    (h5 : spN (String.intercalate " " (raws.map (fun p => p.original))) voiceName = .ok none) :
    processContent text lang voiceName transE sp = .error e ∧
    processContent text lang voiceName transOk spE = .error eS ∧
    processContent text lang voiceName transOk spN = .error "Failed to generate audio." ∧
    processContent text lang voiceName transNone sp
      = Except.map (fun a => ({ audioBase64 := a, segments := [] } : GenerationResult))
          (generateSpeech "" voiceName sp) := by
  have hsegs : translateAndSegment text lang transOk
      = .ok (raws.enum.map (fun p =>
          ({ id := p.1, original := p.2.original, translated := p.2.translated,
             startTime := JSNum.num 0, endTime := JSNum.num 0 } : SubtitleSegment))) := by
    simp [translateAndSegment, h2]
  refine ⟨?_, ?_, ?_, ?_⟩
  · simp [processContent, translateAndSegment, h1]
  · simp only [processContent, hsegs]
    rw [enum_segments_map_original]
    simp only [generateSpeech, h4]
  · simp only [processContent, hsegs]
    rw [enum_segments_map_original]
    simp only [generateSpeech, h5]
  · simp only [processContent, translateAndSegment, h3, Option.getD,
      List.enum_nil, List.map_nil,
      show String.intercalate " " ([] : List String) = "" from rfl]
    cases hg : sp "" voiceName with
    | error err => simp [generateSpeech, hg, Except.map]
    | ok a => cases a <;> simp [generateSpeech, hg, Except.map]

/-- C7, witness: all four failure/propagation scenarios at concrete
translator and synthesizer stubs. -/
theorem c7_failure_propagation_witness :
    processContent "x" Language.english "v"
        (fun _ _ => .error "E") (fun _ _ => .ok (some "A")) = .error "E" ∧
    processContent "x" Language.english "v"
        (fun _ _ => .ok (some [⟨"hi", "chao"⟩])) (fun _ _ => .error "S") = .error "S" ∧
    processContent "x" Language.english "v"
        (fun _ _ => .ok (some [⟨"hi", "chao"⟩])) (fun _ _ => .ok none)
      = .error "Failed to generate audio." ∧
    processContent "x" Language.english "v"
        (fun _ _ => .ok none) (fun _ _ => .ok (some "A"))
      = .ok { audioBase64 := "A", segments := [] } :=
  c7_failure_propagation "x" Language.english "v"
    (fun _ _ => .error "E") (fun _ _ => .ok (some [⟨"hi", "chao"⟩])) (fun _ _ => .ok none)
    (fun _ _ => .ok (some "A")) (fun _ _ => .error "S") (fun _ _ => .ok none)
    "E" "S" [⟨"hi", "chao"⟩] rfl rfl rfl rfl rfl

/-! ## Claims C8 and C9: the App handlers -/

/-- A quiescent app state used by the concrete player scenarios. -/
def baseAppState : AppState :=
  { inputText := "", selectedLang := Language.english, selectedVoiceName := "Kore",
    isGenerating := false, audioUrl := none, segments := [], currentTime := 0,
    duration := 0, playbackRate := 1, volume := 1, audioSrc := none,
    audioPaused := true, audioCurrentTime := 0 }

/-- A loaded player state: audio source `"old"` with playback underway. -/
def playingAppState : AppState :=
  { baseAppState with
    inputText := "x", audioUrl := some "old",
    segments := [⟨0, "s", "t", JSNum.num 0, JSNum.num 1⟩],
    currentTime := 3, duration := 10, audioSrc := some "old",
    audioPaused := false, audioCurrentTime := 3 }

/-- C8, counterexample: starting from a working playback state (source
`"old"`, position 3, duration 10), a generation whose Translator call
fails leaves the audio source cleared and the player state reset — the
prior playback state is *not* left untouched. -/
theorem c8_counterexample :
    (handleGenerate (fun _ _ => .error "E") (fun _ _ => .ok (some "A")) (fun b => b)
        playingAppState).audioUrl = none ∧
    (none : Option String) ≠ some "old" ∧
    (handleGenerate (fun _ _ => .error "E") (fun _ _ => .ok (some "A")) (fun b => b)
        playingAppState).segments = [] ∧
    ([] : List SubtitleSegment) ≠ [⟨0, "s", "t", JSNum.num 0, JSNum.num 1⟩] ∧
    (handleGenerate (fun _ _ => .error "E") (fun _ _ => .ok (some "A")) (fun b => b)
        playingAppState).audioSrc = none ∧
    (handleGenerate (fun _ _ => .error "E") (fun _ _ => .ok (some "A")) (fun b => b)
        playingAppState).currentTime = 0 ∧
    ((0 : ℚ)) ≠ 3 := by
  refine ⟨rfl, by simp, rfl, by simp, rfl, rfl, by norm_num⟩

/-- C8 (amended: `handleGenerate` clears the prior playback state — audio
URL, segment list, position, duration, element source — *before* invoking
the orchestrator, so a failed generation leaves the player cleared, not
with its previous working source). -/
theorem c8_failure_leaves_cleared (st : AppState)
    (translateApi : String → Language → Except String (Option (List RawSeg)))
    (speechApi : String → String → Except String (Option String))
    (mkUrl : String → String) (e : String)
    (hne : jsTrimEmpty st.inputText = false)
    (hfail : processContent st.inputText st.selectedLang st.selectedVoiceName
        translateApi speechApi = .error e) :
    (handleGenerate translateApi speechApi mkUrl st).audioUrl = none ∧
    (handleGenerate translateApi speechApi mkUrl st).segments = [] ∧
    (handleGenerate translateApi speechApi mkUrl st).currentTime = 0 ∧
    (handleGenerate translateApi speechApi mkUrl st).duration = 0 ∧
    (handleGenerate translateApi speechApi mkUrl st).audioSrc = none ∧
    (handleGenerate translateApi speechApi mkUrl st).audioPaused = true ∧
    (handleGenerate translateApi speechApi mkUrl st).isGenerating = false := by
  simp [handleGenerate, hne, hfail]

/-- C8, witness: the cleared-on-failure theorem at the loaded player
state with a failing translator. -/
theorem c8_failure_leaves_cleared_witness :
    (handleGenerate (fun _ _ => .error "E") (fun _ _ => .ok (some "A")) (fun b => b)
        playingAppState).audioUrl = none ∧
    (handleGenerate (fun _ _ => .error "E") (fun _ _ => .ok (some "A")) (fun b => b)
        playingAppState).segments = [] ∧
    (handleGenerate (fun _ _ => .error "E") (fun _ _ => .ok (some "A")) (fun b => b)
        playingAppState).currentTime = 0 ∧
    (handleGenerate (fun _ _ => .error "E") (fun _ _ => .ok (some "A")) (fun b => b)
        playingAppState).duration = 0 ∧
    (handleGenerate (fun _ _ => .error "E") (fun _ _ => .ok (some "A")) (fun b => b)
        playingAppState).audioSrc = none ∧
    (handleGenerate (fun _ _ => .error "E") (fun _ _ => .ok (some "A")) (fun b => b)
        playingAppState).audioPaused = true ∧
    (handleGenerate (fun _ _ => .error "E") (fun _ _ => .ok (some "A")) (fun b => b)
        playingAppState).isGenerating = false :=
  c8_failure_leaves_cleared playingAppState
    (fun _ _ => .error "E") (fun _ _ => .ok (some "A")) (fun b => b) "E"
    (by decide) rfl

/-- C9, counterexample: `handleSeek` applies the requested time verbatim —
seeking to `-5` with duration 10 stores position `-5`, not the clamped
`min (max (-5) 0) 10 = 0`. -/
theorem c9_counterexample :
    (handleSeek (-5) { baseAppState with duration := 10 }).currentTime = -5 ∧
    ((-5 : ℚ)) ≠ min (max ((-5 : ℚ)) 0) 10 := by
  constructor
  · rfl
  · norm_num

/-- C9 (amended: only the `skip` operation clamps its target to
`[0, duration]`; `handleSeek` applies the requested time unclamped): for
a non-negative duration, `skip` lands exactly on
`min (max (current + amount) 0) duration`, which always lies inside
`[0, duration]`, while `handleSeek t` stores `t` itself. -/
theorem c9_seek_clamping (st : AppState) (t amount : ℚ) (hd : 0 ≤ st.duration) :
    (handleSeek t st).currentTime = t ∧
    (handleSeek t st).audioCurrentTime = t ∧
    0 ≤ (skip amount st).audioCurrentTime ∧
    (skip amount st).audioCurrentTime ≤ st.duration ∧
    (skip amount st).audioCurrentTime
      = min (max (st.audioCurrentTime + amount) 0) st.duration := by
  refine ⟨rfl, rfl, ?_, ?_, rfl⟩
  · exact le_min (le_max_right _ _) hd
  · exact min_le_right _ _

/-- C9, witness: seeking to 3 and skipping by 4 from position 2 with
duration 10. -/
theorem c9_seek_clamping_witness :
    (handleSeek 3 { baseAppState with duration := 10, audioCurrentTime := 2 }).currentTime = 3 ∧
    (handleSeek 3 { baseAppState with duration := 10, audioCurrentTime := 2 }).audioCurrentTime
      = 3 ∧
    0 ≤ (skip 4 { baseAppState with duration := 10, audioCurrentTime := 2 }).audioCurrentTime ∧
    (skip 4 { baseAppState with duration := 10, audioCurrentTime := 2 }).audioCurrentTime ≤ 10 ∧
    (skip 4 { baseAppState with duration := 10, audioCurrentTime := 2 }).audioCurrentTime
      = min (max ((2 : ℚ) + 4) 0) 10 :=
  c9_seek_clamping { baseAppState with duration := 10, audioCurrentTime := 2 } 3 4 (by norm_num)

end LinguaVoice
